import Mathlib

/-!
Verification of the connection-entitlement core of the marketplace app.

The definitions below are a shallow embedding of the TypeScript source:
timestamps are naturals counting milliseconds, fallible external writes are
modelled by explicit outcome parameters, and the Firestore collections are
modelled as association lists keyed by document id.
-/

namespace FixbroConnection

/-- Milliseconds in one minute, used by the free-access expiry computation. -/
def msPerMinute : Nat := 60000

/-- Milliseconds in one day, used by the paid-grant expiry computation. -/
def msPerDay : Nat := 86400000

/-- The access-type enumeration of a stored connection.  From the
catalog defaults in src/config/appDefaults.ts (ids oneTime, sevenDays,
thirtyDays, lifetime) plus the free fallback written by
handleFreeAccessUnlock. -/
inductive AccessType where
  | oneTime
  | sevenDays
  | thirtyDays
  | lifetime
  | free
deriving DecidableEq, Repr

/-- A userProviderConnections document.  In the source, paymentId is an
optional field (absent for the free tier) and reviewRequested is an optional
boolean that every reader tests with a falsy check, so an absent field is
modelled as false. -/
structure UserProviderConnection where
  userId : String
  providerId : String
  accessType : AccessType
  grantedAt : Nat
  expiresAt : Option Nat
  paymentId : Option String
  reviewRequested : Bool
deriving DecidableEq, Repr

/-- The expiry test performed in the onSnapshot callback of both
ProviderCard.tsx line 71 and ProviderDetailsClient.tsx line 123:
a ternary on expiresAt, strict less-than against the current wall clock,
and false when expiresAt is null. -/
def isExpired (c : UserProviderConnection) (now : Nat) : Bool :=
  match c.expiresAt with
  | some e => decide (e < now)
  | none => false

/-- The access state a viewer observes for a (user, provider) pair. -/
inductive AccessState where
  | NoAccess
  | Active (record : UserProviderConnection)
  | Expired
deriving DecidableEq, Repr

/-- The evaluation done by the onSnapshot callback: a missing document
clears the connection, a present non-expired document is kept (contact
details shown), a present expired document is treated as no access. -/
def evaluateConnection (record : Option UserProviderConnection) (now : Nat) : AccessState :=
  match record with
  | none => AccessState.NoAccess
  | some c => if isExpired c now then AccessState.Expired else AccessState.Active c

/-- Whether the UI shows the contact details (the Call / Chat buttons render
exactly when the connection state is non-null). -/
def contactShown (record : Option UserProviderConnection) (now : Nat) : Bool :=
  match evaluateConnection record now with
  | AccessState.Active _ => true
  | _ => false

/-- The paid grant written by the thank-you page (src/unnamed/part_009
lines 217 to 235): durationDays is the integer parsed from local storage,
the expiry is null exactly when the access type is lifetime, and otherwise
now plus (durationDays if positive else 1) days; the record carries the
verified payment id and no reviewRequested field (modelled false). -/
def grantPaidConnection (userId providerId : String) (accessType : AccessType)
    (durationDays : Int) (paymentId : String) (now : Nat) : UserProviderConnection :=
  let expiresAt : Option Nat :=
    if accessType = AccessType.lifetime then none
    else
      let finalDuration : Int := if 0 < durationDays then durationDays else 1
      some (now + finalDuration.toNat * msPerDay)
  ⟨userId, providerId, accessType, now, expiresAt, some paymentId, false⟩

/-- The free grant written by handleFreeAccessUnlock (ProviderCard.tsx
lines 138 to 155): the configured minutes with a JS-falsy fallback to 30
(absent or zero both give 30), accessType free, no paymentId field. -/
def handleFreeAccessUnlock (userId providerId : String)
    (freeAccessDurationMinutes : Option Nat) (now : Nat) : UserProviderConnection :=
  let expiryMinutes : Nat :=
    match freeAccessDurationMinutes with
    | some m => if m = 0 then 30 else m
    | none => 30
  ⟨userId, providerId, AccessType.free, now, some (now + expiryMinutes * msPerMinute),
    none, false⟩

/-- One entry of appConfig.connectionAccessOptions. -/
structure ConnectionAccessOption where
  id : AccessType
  label : String
  price : Nat
  durationDays : Option Int
  enabled : Bool
deriving DecidableEq, Repr

/-- The slice of the application configuration consumed by the connect
flow. -/
structure AppConfig where
  connectionAccessOptions : List ConnectionAccessOption
  isFreeAccessFallbackEnabled : Bool
  freeAccessDurationMinutes : Option Nat
deriving DecidableEq, Repr

/-- The possible outcomes of handleConnectClick. -/
inductive ConnectOutcome where
  | authRedirect (target : String)
  | openPaymentDialog
  | freeUnlock (record : UserProviderConnection)
  | unavailableToast
deriving DecidableEq, Repr

/-- handleConnectClick (ProviderCard.tsx lines 193 to 217): with no user it
redirects to sign-in carrying the original intent in the target URL; with
enabled paid options it opens the payment dialog; otherwise the free
fallback runs when enabled, else a toast. -/
def handleConnectClick (user : Option String) (providerId : String)
    (cfg : AppConfig) (now : Nat) : ConnectOutcome :=
  match user with
  | none => ConnectOutcome.authRedirect ("/provider/" ++ providerId ++ "?connect=true")
  | some uid =>
    let enabledPaidOptions := cfg.connectionAccessOptions.filter (fun o => o.enabled)
    if 0 < enabledPaidOptions.length then
      ConnectOutcome.openPaymentDialog
    else if cfg.isFreeAccessFallbackEnabled then
      ConnectOutcome.freeUnlock
        (handleFreeAccessUnlock uid providerId cfg.freeAccessDurationMinutes now)
    else
      ConnectOutcome.unavailableToast

/-- The entitlement record written by a connect-click outcome, if any. -/
def connectOutcomeWrite : ConnectOutcome → Option UserProviderConnection
  | ConnectOutcome.freeUnlock r => some r
  | _ => none

/-- The three local-storage values the gateway callback stores and the
thank-you page requires before it will verify. -/
structure PaymentDetails where
  razorpayPaymentId : String
  razorpayOrderId : String
  razorpaySignature : String
deriving DecidableEq, Repr

/-- The response of the verify-payment API call as consumed by the
thank-you page: a success flag and a capture status string. -/
structure VerificationResult where
  success : Bool
  status : String
deriving DecidableEq, Repr

/-- The observable result of the thank-you connection flow: the entitlement
write (if any), the router.push target (if any), and whether an error toast
was raised. -/
structure ThankYouResult where
  write : Option UserProviderConnection
  redirect : Option String
  toastError : Bool
deriving DecidableEq, Repr

/-- The connection-unlock branch of the thank-you page
(src/unnamed/part_009 lines 188 to 272).  On a refresh
(isProcessingConnectionUnlock cleared) nothing is written.  On first-time
processing: missing payment details redirect back to the provider page; the
verification call must report success with status captured, otherwise the
thrown error is caught, toasted, and the page redirects back; on verified
success the grant is written only when a user is signed in, and silently
skipped otherwise. -/
def thankYouConnectionFlow (isFirstTimeProcessing : Bool) (currentUser : Option String)
    (providerId : String) (details : Option PaymentDetails) (verify : VerificationResult)
    (accessType : AccessType) (durationDays : Int) (now : Nat) : ThankYouResult :=
  if isFirstTimeProcessing then
    match details with
    | none => ⟨none, some ("/provider/" ++ providerId), true⟩
    | some pd =>
      if verify.success = true ∧ verify.status = "captured" then
        match currentUser with
        | some uid =>
          ⟨some (grantPaidConnection uid providerId accessType durationDays
              pd.razorpayPaymentId now), none, false⟩
        | none => ⟨none, none, false⟩
      else ⟨none, some ("/provider/" ++ providerId), true⟩
  else ⟨none, none, false⟩

/-- The Firestore document key of a connection:
a composite of the user id and the provider id. -/
def connectionKey (userId providerId : String) : String :=
  userId ++ "_" ++ providerId

/-- The userProviderConnections collection, keyed by connectionKey. -/
def ConnectionStore : Type := String → Option UserProviderConnection

/-- setDoc semantics: a full overwrite of the document at the key. -/
def setDocStore (s : ConnectionStore) (key : String) (c : UserProviderConnection) :
    ConnectionStore :=
  fun k => if k = key then some c else s k

/-- The empty collection. -/
def emptyStore : ConnectionStore := fun _ => none

/-- The projection of a bookings document relevant to the review trigger:
the synthetic booking id, the (user, provider) pair, the pending flag and
the creation time.  The remaining display-only fields of FirestoreBooking
carry no information used by any claim. -/
structure ReviewBooking where
  bookingId : String
  userId : String
  providerId : String
  isReviewedByCustomer : Bool
  createdAt : Nat
deriving DecidableEq, Repr

/-- The placeholder booking the trigger creates (ProviderCard.tsx lines 90
to 113): synthetic id from prefixes of the provider and user ids, pending
flag false so the review popup fires. -/
def mkReviewBooking (userId providerId : String) (now : Nat) : ReviewBooking :=
  ⟨"REVIEW-" ++ providerId.take 5 ++ "-" ++ userId.take 5, userId, providerId, false, now⟩

/-- The predicate of the pending-review query: same user and not yet
reviewed. -/
def isPendingFor (u : String) (b : ReviewBooking) : Bool :=
  b.userId == u && b.isReviewedByCustomer == false

/-- The number of pending review placeholders of a user, system-wide.  The
source query only tests emptiness (limit 1); the count makes the
at-most-one invariant statable. -/
def countPending (u : String) (bookings : List ReviewBooking) : Nat :=
  (bookings.filter (isPendingFor u)).length

/-- updateDoc with reviewRequested true on the document at the key. -/
def setReviewRequestedInList (l : List (String × UserProviderConnection)) (key : String) :
    List (String × UserProviderConnection) :=
  l.map (fun kv => if key == kv.1 then (kv.1, { kv.2 with reviewRequested := true }) else kv)

/-- The mutable documents the review trigger touches: the bookings
collection and the connections collection (keyed by connectionKey). -/
structure TriggerState where
  bookings : List ReviewBooking
  connections : List (String × UserProviderConnection)
deriving DecidableEq, Repr

/-- One expiry observation of the connection of (u, p), as performed by the
onSnapshot callback (ProviderCard.tsx lines 68 to 132): nothing happens
when the document is missing, not expired, or already guarded by
reviewRequested; otherwise the pending-review existence check gates the
creation of the placeholder followed by the guard flip. -/
def observeConnection (u p : String) (now : Nat) (st : TriggerState) : TriggerState :=
  match st.connections.lookup (connectionKey u p) with
  | none => st
  | some c =>
    if isExpired c now then
      if c.reviewRequested then st
      else
        if countPending u st.bookings = 0 then
          ⟨st.bookings ++ [mkReviewBooking u p now],
            setReviewRequestedInList st.connections (connectionKey u p)⟩
        else st
    else st

/-- A sequence of expiry observations of one user, one at a time, each with
its own provider and wall-clock reading. -/
def observeSeq (u : String) (obs : List (String × Nat)) (st : TriggerState) : TriggerState :=
  obs.foldl (fun s pr => observeConnection u pr.1 pr.2 s) st

/-- Success or failure of one external write. -/
inductive WriteOutcome where
  | ok
  | fail
deriving DecidableEq, Repr

/-- The observable result of one run of the review-trigger body under a
fault model for its two awaited writes. -/
structure TriggerAttemptResult where
  placeholderCreated : Bool
  guardFlipped : Bool
  errorPropagated : Bool
  expiredStateRendered : Bool
deriving DecidableEq, Repr

/-- The try/catch body of the trigger (ProviderCard.tsx lines 79 to 125)
under a fault model: setConnection(null) has already rendered the expired
state before the try block; addDoc of the placeholder is awaited first, the
updateDoc guard flip second, and any throw from either is caught and
logged, never escaping the onSnapshot callback. -/
def reviewTriggerAttempt (addDocOutcome updateDocOutcome : WriteOutcome) :
    TriggerAttemptResult :=
  match addDocOutcome with
  | WriteOutcome.fail => ⟨false, false, false, true⟩
  | WriteOutcome.ok =>
    match updateDocOutcome with
    | WriteOutcome.fail => ⟨true, false, false, true⟩
    | WriteOutcome.ok => ⟨true, true, false, true⟩

/-- A timed record used as a concrete boundary input: its expiry instant is
millisecond 1000. -/
def connBoundary : UserProviderConnection :=
  ⟨"u1", "p1", AccessType.sevenDays, 0, some 1000, none, false⟩

/-- Concrete gateway callback values. -/
def pdSample : PaymentDetails := ⟨"pay_1", "order_1", "sig_1"⟩

/-- A verification response reporting success with status captured. -/
def verifyCaptured : VerificationResult := ⟨true, "captured"⟩

/-- A configuration with no enabled paid tier, the free fallback on, and
the free duration set to 30 minutes. -/
def cfgFreeOnly : AppConfig :=
  ⟨[⟨AccessType.oneTime, "One-time Access", 50, some 1, false⟩], true, some 30⟩

/-- A concrete trigger state: no bookings yet, two connections of user u1
that both expired at millisecond 5. -/
def stSample : TriggerState :=
  ⟨[], [(connectionKey "u1" "p1", ⟨"u1", "p1", AccessType.free, 0, some 5, none, false⟩),
        (connectionKey "u1" "p2", ⟨"u1", "p2", AccessType.free, 0, some 5, none, false⟩)]⟩

/-- A prior record for the re-grant scenario: expired, paid, and with the
review guard already flipped to true. -/
def connPrior : UserProviderConnection :=
  ⟨"u1", "p1", AccessType.oneTime, 0, some 5, some "pay_old", true⟩

/-- A store already holding the prior record at the (u1, p1) key. -/
def storeSample : ConnectionStore :=
  setDocStore emptyStore (connectionKey "u1" "p1") connPrior

/-- A record with a null expiry whose access type is not lifetime. -/
def connNullExpiry : UserProviderConnection :=
  ⟨"u1", "p3", AccessType.free, 0, none, none, false⟩

/-- A trigger state holding only the null-expiry record. -/
def stNull : TriggerState := ⟨[], [(connectionKey "u1" "p3", connNullExpiry)]⟩

/-- Claim C1, counterexample: at the boundary instant, where the record of
the claim has expiresAt equal to now, the evaluator returns Active and the
contact details are shown, whereas the claim states that expiresAt <= now
yields Expired and withholds them.  The source comparison is the strict
expiresAt.toDate() < new Date(). -/
theorem c1_boundary_counterexample :
    connBoundary.expiresAt = some 1000 ∧
    evaluateConnection (some connBoundary) 1000 = AccessState.Active connBoundary ∧
    contactShown (some connBoundary) 1000 = true := by
  decide

/-- Claim C1, amended: the evaluator is a pure case analysis of
(record or absent, now): absent yields NoAccess; a present timed record
with expiresAt > now yields active access; a present timed record with
expiresAt < now (strictly) yields Expired; and the contact details are
withheld exactly when expiresAt < now, so the boundary expiresAt == now
still counts as active. -/
theorem c1_evaluator_case_analysis (record : Option UserProviderConnection) (now : Nat) :
    (record = none → evaluateConnection record now = AccessState.NoAccess) ∧
    (∀ (c : UserProviderConnection) (e : Nat), record = some c → c.expiresAt = some e →
      (now < e → evaluateConnection record now = AccessState.Active c) ∧
      (e < now → evaluateConnection record now = AccessState.Expired) ∧
      (contactShown record now = false ↔ e < now)) := by
  constructor
  · intro h; subst h; rfl
  · intro c e hr he
    subst hr
    by_cases hlt : e < now
    · refine ⟨fun hgt => absurd hlt (Nat.lt_asymm hgt), fun _ => ?_, ?_⟩
      · simp [evaluateConnection, isExpired, he, hlt]
      · simp [contactShown, evaluateConnection, isExpired, he, hlt]
    · refine ⟨fun _ => ?_, fun h => absurd h hlt, ?_⟩
      · simp [evaluateConnection, isExpired, he, hlt]
      · simp [contactShown, evaluateConnection, isExpired, he, hlt]

/-- Claim C1 witness: the amended theorem applied at the concrete boundary
record, once strictly after expiry and once strictly before. -/
theorem c1_witness :
    evaluateConnection (some connBoundary) 2000 = AccessState.Expired ∧
    evaluateConnection (some connBoundary) 500 = AccessState.Active connBoundary := by
  refine ⟨((c1_evaluator_case_analysis (some connBoundary) 2000).2 connBoundary 1000
      rfl rfl).2.1 (by decide),
    ((c1_evaluator_case_analysis (some connBoundary) 500).2 connBoundary 1000
      rfl rfl).1 (by decide)⟩

/-- Claim C2: a paid grant of a timed tier (with the catalog invariant of a
positive day count) stores grantedAt = now, expiresAt = now plus
durationDays days, and the payment reference; a lifetime grant stores a
null expiresAt. -/
theorem c2_duration_correctness (userId providerId : String) (accessType : AccessType)
    (durationDays : Int) (paymentId : String) (now : Nat) :
    (accessType ≠ AccessType.lifetime → 0 < durationDays →
      (grantPaidConnection userId providerId accessType durationDays paymentId now).grantedAt
          = now ∧
      (grantPaidConnection userId providerId accessType durationDays paymentId now).expiresAt
          = some (now + durationDays.toNat * msPerDay) ∧
      (grantPaidConnection userId providerId accessType durationDays paymentId now).paymentId
          = some paymentId) ∧
    (accessType = AccessType.lifetime →
      (grantPaidConnection userId providerId accessType durationDays paymentId now).expiresAt
          = none) := by
  constructor
  · intro hne hpos
    refine ⟨rfl, ?_, rfl⟩
    simp [grantPaidConnection, hne, hpos]
  · intro h
    subst h
    simp [grantPaidConnection]

/-- Claim C2 witness: the theorem applied to a seven-day grant and to a
lifetime grant at concrete inputs. -/
theorem c2_witness :
    (grantPaidConnection "u1" "p1" AccessType.sevenDays 7 "pay_1" 100).expiresAt
        = some (100 + (7 : Int).toNat * msPerDay) ∧
    (grantPaidConnection "u1" "p1" AccessType.lifetime 9999 "pay_1" 100).expiresAt = none := by
  refine ⟨((c2_duration_correctness "u1" "p1" AccessType.sevenDays 7 "pay_1" 100).1
      (by decide) (by decide)).2.1,
    (c2_duration_correctness "u1" "p1" AccessType.lifetime 9999 "pay_1" 100).2 rfl⟩

/-- Claim C3: no entitlement record is written unless the verification call
returned success with status captured (thank-you flow), or the free
fallback was explicitly taken, which requires the fallback flag and an
empty list of enabled paid options (connect click); in particular a
verification failure, a missing payment detail, or a refresh never writes. -/
theorem c3_no_premature_grant :
    (∀ (ft : Bool) (u : Option String) (pid : String) (details : Option PaymentDetails)
        (verify : VerificationResult) (a : AccessType) (d : Int) (now : Nat)
        (r : UserProviderConnection),
      (thankYouConnectionFlow ft u pid details verify a d now).write = some r →
      verify.success = true ∧ verify.status = "captured") ∧
    (∀ (u pid : String) (cfg : AppConfig) (now : Nat) (r : UserProviderConnection),
      handleConnectClick (some u) pid cfg now = ConnectOutcome.freeUnlock r →
      cfg.isFreeAccessFallbackEnabled = true ∧
      cfg.connectionAccessOptions.filter (fun o => o.enabled) = []) := by
  constructor
  · intro ft u pid details verify a d now r h
    cases ft with
    | false => simp [thankYouConnectionFlow] at h
    | true =>
      cases details with
      | none => simp [thankYouConnectionFlow] at h
      | some pd =>
        by_cases hc : verify.success = true ∧ verify.status = "captured"
        · exact hc
        · simp [thankYouConnectionFlow, hc] at h
  · intro u pid cfg now r h
    simp only [handleConnectClick] at h
    by_cases hlen : 0 < (cfg.connectionAccessOptions.filter (fun o => o.enabled)).length
    · rw [if_pos hlen] at h
      exact absurd h (by simp)
    · rw [if_neg hlen] at h
      by_cases hfb : cfg.isFreeAccessFallbackEnabled = true
      · refine ⟨hfb, ?_⟩
        exact List.length_eq_zero.mp (Nat.le_zero.mp (Nat.not_lt.mp hlen))
      · rw [if_neg hfb] at h
        exact absurd h (by simp)

/-- Claim C3 witness: the theorem applied to a concrete verified paid grant
and to a concrete free-fallback unlock. -/
theorem c3_witness :
    (verifyCaptured.success = true ∧ verifyCaptured.status = "captured") ∧
    (cfgFreeOnly.isFreeAccessFallbackEnabled = true ∧
      cfgFreeOnly.connectionAccessOptions.filter (fun o => o.enabled) = []) := by
  refine ⟨c3_no_premature_grant.1 true (some "u1") "p1" (some pdSample) verifyCaptured
      AccessType.sevenDays 7 100
      (grantPaidConnection "u1" "p1" AccessType.sevenDays 7 "pay_1" 100) (by decide),
    c3_no_premature_grant.2 "u1" "p1" cfgFreeOnly 100
      (handleFreeAccessUnlock "u1" "p1" (some 30) 100) (by decide)⟩

/-- Helper: looking up a key after the reviewRequested update of that key
returns the old record with the flag set. -/
theorem lookup_setReviewRequested (l : List (String × UserProviderConnection))
    (key : String) (c : UserProviderConnection) (h : l.lookup key = some c) :
    (setReviewRequestedInList l key).lookup key
      = some { c with reviewRequested := true } := by
  induction l with
  | nil => simp [List.lookup] at h
  | cons hd tl ih =>
    obtain ⟨k, v⟩ := hd
    simp only [setReviewRequestedInList, List.map_cons]
    cases hk : key == k with
    | true =>
      simp only [List.lookup, hk] at h
      have hv : v = c := by injection h
      subst hv
      simp [List.lookup, hk]
    | false =>
      simp only [List.lookup, hk] at h
      simpa [List.lookup, hk, setReviewRequestedInList] using ih h

/-- Claim C4: observing an expired entitlement whose reviewRequested guard
is false creates a placeholder for this (user, provider) pair and flips the
guard when the user has no pending placeholder system-wide; when one is
pending, the whole state is left unchanged, so the guard stays false and
the attempt repeats on every later observation. -/
theorem c4_review_trigger (u p : String) (now : Nat) (st : TriggerState)
    (c : UserProviderConnection)
    (hlook : st.connections.lookup (connectionKey u p) = some c)
    (hexp : isExpired c now = true)
    (hguard : c.reviewRequested = false) :
    (countPending u st.bookings = 0 →
      (observeConnection u p now st).bookings
          = st.bookings ++ [mkReviewBooking u p now] ∧
      (observeConnection u p now st).connections.lookup (connectionKey u p)
          = some { c with reviewRequested := true }) ∧
    (countPending u st.bookings ≠ 0 →
      observeConnection u p now st = st) := by
  constructor
  · intro hzero
    have hobs : observeConnection u p now st
        = ⟨st.bookings ++ [mkReviewBooking u p now],
            setReviewRequestedInList st.connections (connectionKey u p)⟩ := by
      simp [observeConnection, hlook, hexp, hguard, hzero]
    rw [hobs]
    exact ⟨rfl, lookup_setReviewRequested st.connections (connectionKey u p) c hlook⟩
  · intro hnz
    simp [observeConnection, hlook, hexp, hguard, hnz]

/-- Claim C4 witness: the theorem applied to the concrete state with two
expired connections and no booking, observing the first one. -/
theorem c4_witness :
    (observeConnection "u1" "p1" 10 stSample).bookings
        = stSample.bookings ++ [mkReviewBooking "u1" "p1" 10] ∧
    (observeConnection "u1" "p1" 10 stSample).connections.lookup (connectionKey "u1" "p1")
        = some ⟨"u1", "p1", AccessType.free, 0, some 5, none, true⟩ := by
  exact (c4_review_trigger "u1" "p1" 10 stSample
      ⟨"u1", "p1", AccessType.free, 0, some 5, none, false⟩
      (by decide) (by decide) rfl).1 (by decide)

/-- Helper: one expiry observation preserves the at-most-one bound on the
pending placeholders of the user, because creation only happens when the
fresh count is zero and adds exactly one booking. -/
theorem countPending_observe_le (u p : String) (now : Nat) (st : TriggerState)
    (h : countPending u st.bookings ≤ 1) :
    countPending u (observeConnection u p now st).bookings ≤ 1 := by
  cases hl : st.connections.lookup (connectionKey u p) with
  | none => simpa [observeConnection, hl] using h
  | some c =>
    by_cases hexp : isExpired c now = true
    · by_cases hguard : c.reviewRequested = true
      · simpa [observeConnection, hl, hexp, hguard] using h
      · by_cases hzero : countPending u st.bookings = 0
        · simp only [observeConnection, hl, hexp, hguard, hzero, if_true,
            Bool.false_eq_true, if_false]
          have hsplit : countPending u (st.bookings ++ [mkReviewBooking u p now])
              = countPending u st.bookings
                + countPending u [mkReviewBooking u p now] := by
            simp [countPending, List.filter_append]
          have hone : countPending u [mkReviewBooking u p now] ≤ 1 := by
            have := List.length_filter_le (isPendingFor u) [mkReviewBooking u p now]
            simpa [countPending] using this
          rw [hsplit, hzero]
          omega
        · simpa [observeConnection, hl, hexp, hguard, hzero] using h
    · simpa [observeConnection, hl, hexp] using h

/-- Claim C5: across any sequence of expiry observations of a single user,
observed one at a time, the number of pending placeholders of that user
never exceeds one, starting from any state already satisfying the bound. -/
theorem c5_at_most_one_pending (u : String) (obs : List (String × Nat))
    (st : TriggerState) (h : countPending u st.bookings ≤ 1) :
    countPending u (observeSeq u obs st).bookings ≤ 1 := by
  induction obs generalizing st with
  | nil => simpa [observeSeq] using h
  | cons hd tl ih =>
    have hstep := countPending_observe_le u hd.1 hd.2 st h
    simpa [observeSeq, List.foldl_cons] using ih (observeConnection u hd.1 hd.2 st) hstep

/-- Claim C5 witness: the theorem applied to the concrete state with two
connections of user u1 that both expired, observed in sequence. -/
theorem c5_witness :
    countPending "u1" (observeSeq "u1" [("p1", 10), ("p2", 20)] stSample).bookings ≤ 1 :=
  c5_at_most_one_pending "u1" [("p1", 10), ("p2", 20)] stSample (by decide)

/-- Claim C6, counterexample: when the placeholder addDoc succeeds and the
guard-flip updateDoc then fails, the run ends with a placeholder created
and reviewRequested not flipped — the state the claim says never occurs.
The two writes share one try/catch and are not batched or transactional. -/
theorem c6_guard_flip_failure_counterexample :
    (reviewTriggerAttempt WriteOutcome.ok WriteOutcome.fail).placeholderCreated = true ∧
    (reviewTriggerAttempt WriteOutcome.ok WriteOutcome.fail).guardFlipped = false := by
  decide

/-- Claim C6, amended: a failure of either write never propagates out of
the read path and the expired access state still renders; a failure of the
placeholder write leaves neither a placeholder nor a flipped guard; but a
placeholder without a flipped guard does arise in exactly one case, namely
when the placeholder write succeeds and the guard-flip write fails. -/
theorem c6_failure_semantics (addDocOutcome updateDocOutcome : WriteOutcome) :
    (reviewTriggerAttempt addDocOutcome updateDocOutcome).errorPropagated = false ∧
    (reviewTriggerAttempt addDocOutcome updateDocOutcome).expiredStateRendered = true ∧
    (addDocOutcome = WriteOutcome.fail →
      (reviewTriggerAttempt addDocOutcome updateDocOutcome).placeholderCreated = false ∧
      (reviewTriggerAttempt addDocOutcome updateDocOutcome).guardFlipped = false) ∧
    ((reviewTriggerAttempt addDocOutcome updateDocOutcome).placeholderCreated = true ∧
      (reviewTriggerAttempt addDocOutcome updateDocOutcome).guardFlipped = false →
      addDocOutcome = WriteOutcome.ok ∧ updateDocOutcome = WriteOutcome.fail) := by
  cases addDocOutcome <;> cases updateDocOutcome <;> simp [reviewTriggerAttempt]

/-- Claim C6 witness: the amended theorem applied to a failing placeholder
write. -/
theorem c6_witness :
    (reviewTriggerAttempt WriteOutcome.fail WriteOutcome.ok).placeholderCreated = false ∧
    (reviewTriggerAttempt WriteOutcome.fail WriteOutcome.ok).guardFlipped = false :=
  (c6_failure_semantics WriteOutcome.fail WriteOutcome.ok).2.2.1 rfl

/-- Claim C7: a grant over a key that already holds a record is a full
setDoc overwrite: the stored result equals the freshly computed grant,
coincides with what a first-time grant over an empty store would put at the
key, and carries reviewRequested false. -/
theorem c7_regrant_resets (s : ConnectionStore) (prior : UserProviderConnection)
    (userId providerId : String) (accessType : AccessType) (durationDays : Int)
    (paymentId : String) (now : Nat)
    (hprior : s (connectionKey userId providerId) = some prior) :
    (setDocStore s (connectionKey userId providerId)
        (grantPaidConnection userId providerId accessType durationDays paymentId now))
      (connectionKey userId providerId)
      = some (grantPaidConnection userId providerId accessType durationDays paymentId now) ∧
    (setDocStore s (connectionKey userId providerId)
        (grantPaidConnection userId providerId accessType durationDays paymentId now))
      (connectionKey userId providerId)
      = (setDocStore emptyStore (connectionKey userId providerId)
          (grantPaidConnection userId providerId accessType durationDays paymentId now))
        (connectionKey userId providerId) ∧
    (grantPaidConnection userId providerId accessType durationDays paymentId now).reviewRequested
      = false := by
  refine ⟨?_, ?_, rfl⟩ <;> simp [setDocStore]

/-- Claim C7 witness: the theorem applied to a store holding an expired
prior record whose reviewRequested flag is true. -/
theorem c7_witness :
    (setDocStore storeSample (connectionKey "u1" "p1")
        (grantPaidConnection "u1" "p1" AccessType.sevenDays 7 "pay_2" 200))
      (connectionKey "u1" "p1")
      = some (grantPaidConnection "u1" "p1" AccessType.sevenDays 7 "pay_2" 200) :=
  (c7_regrant_resets storeSample connPrior "u1" "p1" AccessType.sevenDays 7
    "pay_2" 200 (by decide)).1

/-- Claim C8: with no enabled paid tier, the free fallback enabled, and the
configured free duration 30 minutes, a connect click of a signed-in user
creates the free record expiring 30 minutes after the grant instant, with
no payment reference. -/
theorem c8_free_fallback (uid pid : String) (cfg : AppConfig) (now : Nat)
    (hopts : cfg.connectionAccessOptions.filter (fun o => o.enabled) = [])
    (hfb : cfg.isFreeAccessFallbackEnabled = true)
    (hdur : cfg.freeAccessDurationMinutes = some 30) :
    handleConnectClick (some uid) pid cfg now
      = ConnectOutcome.freeUnlock
          ⟨uid, pid, AccessType.free, now, some (now + 30 * msPerMinute), none, false⟩ := by
  simp [handleConnectClick, hopts, hfb, hdur, handleFreeAccessUnlock]

/-- Claim C8 witness: the theorem applied to the concrete free-only
configuration at millisecond 1000. -/
theorem c8_witness :
    handleConnectClick (some "u1") "p1" cfgFreeOnly 1000
      = ConnectOutcome.freeUnlock
          ⟨"u1", "p1", AccessType.free, 1000, some (1000 + 30 * msPerMinute), none, false⟩ :=
  c8_free_fallback "u1" "p1" cfgFreeOnly 1000 (by decide) rfl rfl

/-- Claim C9, counterexample: the thank-you grant with a verified, captured
payment but no signed-in user writes nothing, pushes no route at all, and
raises no error — so this entitlement-granting operation neither fails with
a NotAuthenticated surface nor redirects to sign-in, contrary to the
claim. -/
theorem c9_thankyou_no_redirect_counterexample :
    thankYouConnectionFlow true none "p1" (some pdSample) verifyCaptured
        AccessType.sevenDays 7 100
      = ⟨none, none, false⟩ := by
  decide

/-- Claim C9, amended: with no signed-in user no entry point writes an
entitlement: the connect click redirects to sign-in with the original
intent preserved in the target and performs no write, and the thank-you
grant skips its write silently (without a sign-in redirect). -/
theorem c9_no_user_no_write (pid : String) (cfg : AppConfig) (now : Nat)
    (ft : Bool) (details : Option PaymentDetails) (verify : VerificationResult)
    (a : AccessType) (d : Int) (now2 : Nat) :
    handleConnectClick none pid cfg now
      = ConnectOutcome.authRedirect ("/provider/" ++ pid ++ "?connect=true") ∧
    connectOutcomeWrite (handleConnectClick none pid cfg now) = none ∧
    (thankYouConnectionFlow ft none pid details verify a d now2).write = none := by
  refine ⟨rfl, rfl, ?_⟩
  cases ft with
  | false => rfl
  | true =>
    cases details with
    | none => rfl
    | some pd =>
      by_cases hc : verify.success = true ∧ verify.status = "captured"
      · simp [thankYouConnectionFlow, hc]
      · simp [thankYouConnectionFlow, hc]

/-- Claim C10: a stored record whose expiresAt is null is never expired,
regardless of its access type: the evaluator reports valid access, the
contact details render, and an observation of it never fires the review
trigger. -/
theorem c10_null_expiry_always_active (c : UserProviderConnection) (now : Nat)
    (hnull : c.expiresAt = none) :
    isExpired c now = false ∧
    evaluateConnection (some c) now = AccessState.Active c ∧
    contactShown (some c) now = true ∧
    (∀ (u p : String) (st : TriggerState),
      st.connections.lookup (connectionKey u p) = some c →
      observeConnection u p now st = st) := by
  have hie : isExpired c now = false := by simp [isExpired, hnull]
  refine ⟨hie, ?_, ?_, ?_⟩
  · simp [evaluateConnection, hie]
  · simp [contactShown, evaluateConnection, hie]
  · intro u p st hl
    simp [observeConnection, hl, hie]

/-- Claim C10 witness: the theorem applied to a free-tier record with a
null expiry, observed far in the future. -/
theorem c10_witness :
    evaluateConnection (some connNullExpiry) 999999999 = AccessState.Active connNullExpiry ∧
    observeConnection "u1" "p3" 999999999 stNull = stNull :=
  ⟨(c10_null_expiry_always_active connNullExpiry 999999999 rfl).2.1,
    (c10_null_expiry_always_active connNullExpiry 999999999 rfl).2.2.2 "u1" "p3" stNull
      (by decide)⟩

end FixbroConnection
